import Mathlib

/-!
# Verification of the stdio-override guard protocol

A shallow embedding of the `stdio-override` crate (`src/lib.rs`,
`src/unix.rs`): the POSIX platform primitives that duplicate and install
standard-stream descriptors, and the per-stream override guard with its
process-wide ordering counter.  Theorems below settle the specification
claims about construction, nesting, restore ordering and error handling.
-/

namespace StdioOverride

/-!
### Platform stream primitives (embedding of `src/unix.rs`)

A `RawFd` is modelled as `Int`.  Syscall behaviour is supplied by an
oracle `sys : Nat → Int × Int`: the `k`-th syscall issued by the program
returns `(sys k).1` and leaves `(sys k).2` as the thread's last OS error
(`errno`).  `SysSt` records the number of syscalls performed so far, the
current last OS error and the ordered trace of syscalls issued, so that
theorems can speak about which platform calls were made and in which
order.
-/

def STDIN_FILENO : Int := 0

def STDOUT_FILENO : Int := 1

def STDERR_FILENO : Int := 2

/-- One POSIX syscall as issued by `src/unix.rs`. -/
inductive Syscall
  | dup (fd : Int)
  | dup2 (src dst : Int)
  | close (fd : Int)
  deriving DecidableEq, Repr

/-- Ambient OS state threaded through the platform layer. -/
structure SysSt where
  k : Nat
  lastErr : Int
  trace : List Syscall
  deriving DecidableEq, Repr

/-- Issue one syscall: consume the oracle's next result, record the call. -/
def syscall (sys : Nat → Int × Int) (st : SysSt) (c : Syscall) : Int × SysSt :=
  ((sys st.k).1, ⟨st.k + 1, (sys st.k).2, st.trace ++ [c]⟩)

/-- `fn io_res(res: c_int) -> io::Result<c_int>`: the `-1` sentinel is
mapped to `Err(io::Error::last_os_error())`, anything else to `Ok(res)`. -/
def io_res (st : SysSt) (res : Int) : Except Int Int :=
  if res = -1 then .error st.lastErr else .ok res

/-- `fn set_stdio(stdio: RawFd, other: RawFd) -> io::Result<()>`:
`io_res(unsafe { libc::dup2(other, stdio) })?; Ok(())`. -/
def set_stdio (sys : Nat → Int × Int) (st : SysSt) (stdio other : Int) :
    Except Int Unit × SysSt :=
  let r := syscall sys st (.dup2 other stdio)
  match io_res r.2 r.1 with
  | .error e => (.error e, r.2)
  | .ok _ => (.ok (), r.2)

/-- `fn override_stdio(stdio: RawFd, other: RawFd, owned: bool) -> io::Result<File>`:
duplicate the currently installed descriptor, install `other` in its
place, close `other` when it was owned, and return the duplicate
(`File::from_raw_fd(original)` is modelled by returning the raw duplicate). -/
def override_stdio (sys : Nat → Int × Int) (st : SysSt) (stdio other : Int)
    (owned : Bool) : Except Int Int × SysSt :=
  let r0 := syscall sys st (.dup stdio)
  match io_res r0.2 r0.1 with
  | .error e => (.error e, r0.2)
  | .ok original =>
    match set_stdio sys r0.2 stdio other with
    | (.error e, st2) => (.error e, st2)
    | (.ok _, st2) =>
      if owned then
        let r2 := syscall sys st2 (.close other)
        match io_res r2.2 r2.1 with
        | .error e => (.error e, r2.2)
        | .ok _ => (.ok original, r2.2)
      else (.ok original, st2)

/-!
### Override guards (embedding of `src/lib.rs`)

Streams and descriptors at this layer are identified with the underlying
stream object they reference, as a `Nat`: `libc::dup` produces a fresh
descriptor for the *same* stream object, so the saved `original` of a
guard is modelled as the stream id that was installed at creation time.

Per `StreamKind` the crate keeps one process-wide `AtomicUsize`
(`OVERRIDDEN_STDIN_COUNT`, `OVERRIDDEN_STDOUT_COUNT`,
`OVERRIDDEN_STDERR_COUNT`); `MachineState` is that counter together with
the stream currently installed in the standard-stream slot.  The three
per-stream implementations are textually identical up to the counter and
the panic message, so they are embedded once, parameterised by the
`StreamKind`.
-/

/-- The three standard streams. -/
inductive StreamKind
  | input
  | output
  | error
  deriving DecidableEq, Repr

def streamName : StreamKind → String
  | .input => "Stdin"
  | .output => "Stdout"
  | .error => "Stderr"

/-- `panic!("Stdout override reset out of order!")` and its two siblings. -/
def panicMsg (k : StreamKind) : String :=
  streamName k ++ " override reset out of order!"

/-- The guard struct: `original: ManuallyDrop<File>, index: usize`. -/
structure Guard where
  original : Nat
  index : Nat
  deriving DecidableEq, Repr

/-- Process-wide state for one `StreamKind`: the atomic counter and the
stream installed in the standard-stream slot. -/
structure MachineState where
  count : Nat
  installed : Nat
  deriving DecidableEq, Repr

/-- How one resolution attempt ends, as observed by the caller. -/
inductive ResetOutcome
  | ok
  | osError (e : Nat)
  | panicked (msg : String)
  deriving DecidableEq, Repr

/-- Result of a construction call: either a guard or an OS error. -/
inductive CreateRes
  | ok (g : Guard)
  | osError (e : Nat)
  deriving DecidableEq, Repr

/-- One invocation of the platform override primitive
(`imp::override_stdin/stdout/stderr`), with its arguments. -/
structure PlatformCall where
  target : Nat
  owned : Bool
  deriving DecidableEq, Repr

/-- Full observable outcome of a construction call: the returned value,
the post state, and the platform calls performed. -/
structure CreateResult where
  res : CreateRes
  state : MachineState
  calls : List PlatformCall
  deriving DecidableEq, Repr

/-- `fn from_raw_inner(raw: imp::Raw, owned: bool) -> io::Result<Self>`.
The struct fields are evaluated in order: first
`imp::override_*(raw, owned)?` (whose failure, injected by
`platformErr = some e`, returns before the counter is touched), then
`index: COUNT.fetch_add(1, SeqCst)`.  On the success path the guard's
`original` is the stream installed before the call and the slot now
holds `raw`. -/
def from_raw_inner (m : MachineState) (raw : Nat) (owned : Bool)
    (platformErr : Option Nat) : CreateResult :=
  match platformErr with
  | some e => ⟨.osError e, m, [⟨raw, owned⟩]⟩
  | none => ⟨.ok ⟨m.installed, m.count⟩, ⟨m.count + 1, raw⟩, [⟨raw, owned⟩]⟩

/-- `pub fn from_raw(raw) { Self::from_raw_inner(raw, false) }` -/
def from_raw (m : MachineState) (raw : Nat) (platformErr : Option Nat) :
    CreateResult :=
  from_raw_inner m raw false platformErr

/-- `pub fn from_raw_owned(raw) { Self::from_raw_inner(raw, true) }` -/
def from_raw_owned (m : MachineState) (raw : Nat) (platformErr : Option Nat) :
    CreateResult :=
  from_raw_inner m raw true platformErr

/-- `imp::as_raw`: `AsRawFd::as_raw_fd`, the identity on the device's
underlying descriptor id. -/
def as_raw (dev : Nat) : Nat := dev

/-- `imp::into_raw`: `IntoRawFd::into_raw_fd`, likewise the identity. -/
def into_raw (dev : Nat) : Nat := dev

/-- `pub fn from_io_ref<T>(io: &T) { Self::from_raw(imp::as_raw(io)) }` -/
def from_io_ref (m : MachineState) (dev : Nat) (platformErr : Option Nat) :
    CreateResult :=
  from_raw m (as_raw dev) platformErr

/-- `pub fn from_io<T>(io: T) { Self::from_raw_owned(imp::into_raw(io)) }` -/
def from_io (m : MachineState) (dev : Nat) (platformErr : Option Nat) :
    CreateResult :=
  from_raw_owned m (into_raw dev) platformErr

/-- Result of `File::open` / `File::create` on the given path. -/
inductive OpenRes
  | ok (fd : Nat)
  | osError (e : Nat)
  deriving DecidableEq, Repr

/-- `pub fn from_file<P>(path: P) { Self::from_io(File::open(path)?) }`
(`File::create` for the output/error streams).  When the open fails, the
error propagates before any platform override call is made. -/
def from_file (m : MachineState) (openRes : OpenRes) (platformErr : Option Nat) :
    CreateResult :=
  match openRes with
  | .osError e => ⟨.osError e, m, []⟩
  | .ok fd => from_io m fd platformErr

/-- `fn reset_inner(&self) -> io::Result<()>`:
`if COUNT.swap(self.index, SeqCst) <= self.index { panic!(...) }` and then
`imp::reset_*(as_raw(&*self.original))`, a `dup2` of the saved original
back into the standard-stream slot.  `restoreErr = some e` injects an OS
failure of that `dup2` (slot left unchanged), `none` lets it succeed.
Note the swap happens unconditionally, before the check. -/
def reset_inner (k : StreamKind) (m : MachineState) (g : Guard)
    (restoreErr : Option Nat) : ResetOutcome × MachineState :=
  let old := m.count
  let m1 : MachineState := ⟨g.index, m.installed⟩
  if old ≤ g.index then
    (.panicked (panicMsg k), m1)
  else
    match restoreErr with
    | none => (.ok, ⟨m1.count, g.original⟩)
    | some e => (.osError e, m1)

/-- `impl Drop: fn drop(&mut self) { let _ = self.reset_inner(); }` —
an OS error from the restore is discarded; a panic propagates. -/
def drop_guard (k : StreamKind) (m : MachineState) (g : Guard)
    (restoreErr : Option Nat) : ResetOutcome × MachineState :=
  match reset_inner k m g restoreErr with
  | (.osError _, m1) => (.ok, m1)
  | r => r

/-- `pub fn reset(self) -> io::Result<()> { self.reset_inner()?;
std::mem::forget(self); Ok(()) }` with Rust's drop semantics: on the two
non-`Ok` paths of `reset_inner` the early exit (error return or unwind)
drops `self` before leaving the function, so `Drop::drop` runs
`reset_inner` a second time; a panic raised there supersedes the value
being returned (a second panic while already unwinding aborts the
process, also modelled as `panicked`). -/
def reset (k : StreamKind) (m : MachineState) (g : Guard)
    (restoreErr : Option Nat) : ResetOutcome × MachineState :=
  match reset_inner k m g restoreErr with
  | (.ok, m1) => (.ok, m1)
  | (.osError e, m1) =>
      match reset_inner k m1 g restoreErr with
      | (.panicked msg, m2) => (.panicked msg, m2)
      | (_, m2) => (.osError e, m2)
  | (.panicked msg, m1) =>
      match reset_inner k m1 g restoreErr with
      | (.panicked msg2, m2) => (.panicked msg2, m2)
      | (_, m2) => (.panicked msg, m2)

/-!
### The nesting protocol as a transition system

`TState` extends `MachineState` with the list of still-unresolved
(`Active`) guards of the stream, newest first; each live guard is paired
with the target its construction installed (ghost data used only to state
the invariants — the crate itself does not store the target).
-/

/-- A still-`Active` guard together with the target it installed. -/
structure LiveGuard where
  guard : Guard
  target : Nat
  deriving DecidableEq, Repr

/-- Whole-protocol state for one `StreamKind`. -/
structure TState where
  count : Nat
  installed : Nat
  live : List LiveGuard
  deriving DecidableEq, Repr

/-- A successful construction with target `t`: the effect of
`from_raw_inner` on the process state, with the fresh guard becoming the
newest live guard. -/
def createStep (s : TState) (t : Nat) : TState :=
  let r := from_raw_inner ⟨s.count, s.installed⟩ t true none
  { count := r.state.count
    installed := r.state.installed
    live := (match r.res with
             | .ok g => [LiveGuard.mk g t]
             | .osError _ => []) ++ s.live }

/-- Successive successful constructions for the targets in `ts`. -/
def createN (s : TState) (ts : List Nat) : TState :=
  ts.foldl createStep s

/-- Resolve (drop) the newest live guard, the restore succeeding. -/
def resolveTopStep (k : StreamKind) (s : TState) (restoreErr : Option Nat) :
    ResetOutcome × TState :=
  match s.live with
  | [] => (.ok, s)
  | lg :: rest =>
      let r := drop_guard k ⟨s.count, s.installed⟩ lg.guard restoreErr
      (r.1, ⟨r.2.count, r.2.installed, rest⟩)

/-- Resolve (drop) the live guard at position `i` (0 = newest), which need
not be the newest: this is how an out-of-order drop is exercised. -/
def dropLive (k : StreamKind) (s : TState) (i : Nat) (restoreErr : Option Nat) :
    ResetOutcome × TState :=
  match s.live[i]? with
  | none => (.ok, s)
  | some lg =>
      let r := drop_guard k ⟨s.count, s.installed⟩ lg.guard restoreErr
      (r.1, ⟨r.2.count, r.2.installed, s.live.eraseIdx i⟩)

/-- Drop the given guards one after the other (all restores succeeding),
returning each drop's outcome together with the machine state it leaves
behind.  Applied to `s.live` this resolves the live guards newest first,
i.e. in exact reverse creation order. -/
def resolveSeq (k : StreamKind) (m : MachineState) :
    List LiveGuard → List (ResetOutcome × MachineState)
  | [] => []
  | lg :: rest =>
      let r := drop_guard k m lg.guard none
      (r.1, r.2) :: resolveSeq k r.2 rest

/-- States reachable from process start (counter 0, original stream `s0`,
no live guard) by successful constructions, failed constructions (which
leave the process state unchanged, `from_raw_inner` returning before the
counter increment) and valid-order resolves of the newest guard with the
restore succeeding. -/
inductive Reachable (k : StreamKind) (s0 : Nat) : TState → Prop
  | init : Reachable k s0 ⟨0, s0, []⟩
  | create (s : TState) (t : Nat) :
      Reachable k s0 s → Reachable k s0 (createStep s t)
  | createFail (s : TState) : Reachable k s0 s → Reachable k s0 s
  | resolveTop (s : TState) :
      Reachable k s0 s → Reachable k s0 (resolveTopStep k s none).2

/-- The stack invariant of the protocol, on a newest-first list of live
guards: every live token is below the counter, the newest guard's target
is the installed stream, and recursively — with the counter seen by the
older guards being this guard's token and the installed stream being this
guard's saved original — the same holds below. -/
def goodStack : Nat → Nat → List LiveGuard → Bool
  | _, _, [] => true
  | c, installed, lg :: rest =>
      decide (lg.guard.index < c) && (lg.target == installed) &&
        goodStack lg.guard.index lg.guard.original rest

theorem goodStack_lt {c i : Nat} {l : List LiveGuard}
    (h : goodStack c i l = true) : ∀ lg ∈ l, lg.guard.index < c := by
  induction l generalizing c i with
  | nil => simp
  | cons hd tl ih =>
      simp only [goodStack, Bool.and_eq_true, decide_eq_true_eq] at h
      obtain ⟨⟨h1, _⟩, h3⟩ := h
      intro lg hlg
      rcases List.mem_cons.mp hlg with rfl | hmem
      · exact h1
      · exact lt_trans (ih h3 lg hmem) h1

theorem goodStack_createStep {s : TState} (t : Nat)
    (h : goodStack s.count s.installed s.live = true) :
    goodStack (createStep s t).count (createStep s t).installed
      (createStep s t).live = true := by
  simpa [createStep, from_raw_inner, goodStack] using h

theorem goodStack_resolveTop (k : StreamKind) {s : TState}
    (h : goodStack s.count s.installed s.live = true) :
    goodStack (resolveTopStep k s none).2.count
      (resolveTopStep k s none).2.installed
      (resolveTopStep k s none).2.live = true := by
  cases hl : s.live with
  | nil => simpa [resolveTopStep, hl] using h
  | cons lg rest =>
      rw [hl] at h
      simp only [goodStack, Bool.and_eq_true, decide_eq_true_eq] at h
      obtain ⟨⟨h1, _⟩, h3⟩ := h
      simpa [resolveTopStep, hl, drop_guard, reset_inner,
        Nat.not_le.mpr h1] using h3

theorem goodStack_reachable {k : StreamKind} {s0 : Nat} {s : TState}
    (h : Reachable k s0 s) :
    goodStack s.count s.installed s.live = true := by
  induction h with
  | init => rfl
  | create s t _ ih => exact goodStack_createStep t ih
  | createFail s _ ih => exact ih
  | resolveTop s _ ih => exact goodStack_resolveTop k ih

theorem goodStack_createN (ts : List Nat) :
    ∀ s : TState, goodStack s.count s.installed s.live = true →
      goodStack (createN s ts).count (createN s ts).installed
        (createN s ts).live = true := by
  induction ts with
  | nil => exact fun s h => h
  | cons t ts ih =>
      intro s h
      simpa [createN, List.foldl] using ih (createStep s t) (goodStack_createStep t h)

theorem resolveSeq_eq_map (k : StreamKind) :
    ∀ (l : List LiveGuard) (c i : Nat), goodStack c i l = true →
      resolveSeq k ⟨c, i⟩ l
        = l.map fun lg =>
            (ResetOutcome.ok, (⟨lg.guard.index, lg.guard.original⟩ : MachineState)) := by
  intro l
  induction l with
  | nil => intro c i _; rfl
  | cons lg rest ih =>
      intro c i h
      simp only [goodStack, Bool.and_eq_true, decide_eq_true_eq] at h
      obtain ⟨⟨h1, _⟩, h3⟩ := h
      simp only [resolveSeq, drop_guard, reset_inner, Nat.not_le.mpr h1,
        if_false, List.map, List.cons.injEq]
      exact ⟨trivial, by simpa using ih lg.guard.index lg.guard.original h3⟩

theorem goodStack_pairwise {c i : Nat} {l : List LiveGuard}
    (h : goodStack c i l = true) :
    l.Pairwise (fun a b => b.guard.index < a.guard.index) := by
  induction l generalizing c i with
  | nil => exact List.Pairwise.nil
  | cons hd tl ih =>
      simp only [goodStack, Bool.and_eq_true, decide_eq_true_eq] at h
      obtain ⟨⟨_, _⟩, h3⟩ := h
      exact List.Pairwise.cons (fun b hb => goodStack_lt h3 b hb) (ih h3)

/-!
### The claims
-/

/-- C5 (confirmed): every successful call to any of the five public
construction operations (`from_raw`, `from_raw_owned`, `from_io_ref`,
`from_io`, `from_file`) performs the platform duplicate-and-install
operation exactly once (the `calls` component is a one-element list),
constructs exactly one guard, whose `sequence_token` is the counter value
before the call, and leaves the process-wide counter incremented by one. -/
theorem c5_five_constructors_one_call (m : MachineState) (raw dev fd : Nat) :
    from_raw m raw none
      = ⟨.ok ⟨m.installed, m.count⟩, ⟨m.count + 1, raw⟩, [⟨raw, false⟩]⟩ ∧
    from_raw_owned m raw none
      = ⟨.ok ⟨m.installed, m.count⟩, ⟨m.count + 1, raw⟩, [⟨raw, true⟩]⟩ ∧
    from_io_ref m dev none
      = ⟨.ok ⟨m.installed, m.count⟩, ⟨m.count + 1, dev⟩, [⟨dev, false⟩]⟩ ∧
    from_io m dev none
      = ⟨.ok ⟨m.installed, m.count⟩, ⟨m.count + 1, dev⟩, [⟨dev, true⟩]⟩ ∧
    from_file m (.ok fd) none
      = ⟨.ok ⟨m.installed, m.count⟩, ⟨m.count + 1, fd⟩, [⟨fd, true⟩]⟩ :=
  ⟨rfl, rfl, rfl, rfl, rfl⟩

/-- C9 (confirmed): a construction whose platform override call fails with
an OS error returns that error before the counter is incremented — the
process state is unchanged, no guard exists and no `sequence_token` was
consumed.  A `from_file` whose open fails does not even reach the
platform call. -/
theorem c9_failed_construction_no_token (m : MachineState) (raw fd : Nat)
    (owned : Bool) (e : Nat) :
    from_raw_inner m raw owned (some e) = ⟨.osError e, m, [⟨raw, owned⟩]⟩ ∧
    from_file m (.osError e) none = ⟨.osError e, m, []⟩ ∧
    from_file m (.ok fd) (some e) = ⟨.osError e, m, [⟨fd, true⟩]⟩ :=
  ⟨rfl, rfl, rfl⟩

/-- C8 (confirmed): while a guard of the stream is still active
(`s.live ≠ []`), constructing another guard of the same stream succeeds:
the construction path has no check against already-live guards, so the
platform result is a fresh `Active` guard pushed onto the live stack with
the next token. -/
theorem c8_nested_construction_succeeds (s : TState) (t : Nat) (owned : Bool)
    (_h : s.live ≠ []) :
    (from_raw_inner ⟨s.count, s.installed⟩ t owned none).res
      = .ok ⟨s.installed, s.count⟩ ∧
    (createStep s t).live = ⟨⟨s.installed, s.count⟩, t⟩ :: s.live :=
  ⟨rfl, rfl⟩

/-- Witness for C8: a second guard created back-to-back after a first one
(as in the crate's `test_multiple`): both constructions succeed. -/
theorem c8_witness :
    (from_raw_inner ⟨(createStep ⟨0, 100, []⟩ 1).count,
        (createStep ⟨0, 100, []⟩ 1).installed⟩ 2 true none).res
      = CreateRes.ok ⟨(createStep ⟨0, 100, []⟩ 1).installed,
        (createStep ⟨0, 100, []⟩ 1).count⟩ ∧
    (createStep (createStep ⟨0, 100, []⟩ 1) 2).live
      = ⟨⟨(createStep ⟨0, 100, []⟩ 1).installed,
          (createStep ⟨0, 100, []⟩ 1).count⟩, 2⟩
        :: (createStep ⟨0, 100, []⟩ 1).live :=
  c8_nested_construction_succeeds (createStep ⟨0, 100, []⟩ 1) 2 true (by decide)

/-- C2 (confirmed): for any sequence of nested guards created in order for
the targets `ts` (starting from counter `c0` with stream `s0` installed),
resolving them in exact reverse creation order never triggers the
ordering panic — every drop returns `ok`, and after each drop the counter
is back at the resolved guard's token and the installed stream is the
resolved guard's saved original, i.e. the next-older guard's target (the
`goodStack` conjunct certifies this chaining). -/
theorem c2_reverse_order_resolution (k : StreamKind) (c0 s0 : Nat)
    (ts : List Nat) :
    resolveSeq k ⟨(createN ⟨c0, s0, []⟩ ts).count,
        (createN ⟨c0, s0, []⟩ ts).installed⟩ (createN ⟨c0, s0, []⟩ ts).live
      = (createN ⟨c0, s0, []⟩ ts).live.map
          (fun lg =>
            (ResetOutcome.ok,
              (⟨lg.guard.index, lg.guard.original⟩ : MachineState))) ∧
    goodStack (createN ⟨c0, s0, []⟩ ts).count (createN ⟨c0, s0, []⟩ ts).installed
        (createN ⟨c0, s0, []⟩ ts).live = true := by
  have hg : goodStack (createN ⟨c0, s0, []⟩ ts).count
      (createN ⟨c0, s0, []⟩ ts).installed (createN ⟨c0, s0, []⟩ ts).live = true :=
    goodStack_createN ts ⟨c0, s0, []⟩ rfl
  exact ⟨resolveSeq_eq_map k _ _ _ hg, hg⟩

/-- C3 (confirmed): in every reachable state of the guard state machine,
the live guard with the highest `sequence_token` — the newest, at the
head of the live stack, all other live tokens being strictly smaller — is
the one whose override target is currently installed as the process's
standard stream; this is preserved by every construction (successful or
failed) and every valid-order resolve. -/
theorem c3_topmost_guard_installed (k : StreamKind) (s0 : Nat) (s : TState)
    (h : Reachable k s0 s) :
    goodStack s.count s.installed s.live = true ∧
    ∀ top rest, s.live = top :: rest →
      top.target = s.installed ∧
        ∀ lg ∈ rest, lg.guard.index < top.guard.index := by
  have hg := goodStack_reachable h
  refine ⟨hg, ?_⟩
  intro top rest hl
  rw [hl] at hg
  simp only [goodStack, Bool.and_eq_true, decide_eq_true_eq, beq_iff_eq] at hg
  obtain ⟨⟨_, h2⟩, h3⟩ := hg
  exact ⟨h2, goodStack_lt h3⟩

/-- Witness for C3: after two nested overrides from process start, the
invariant holds and the newest guard's target is the installed stream. -/
theorem c3_witness :
    goodStack (createStep (createStep ⟨0, 100, []⟩ 1) 2).count
      (createStep (createStep ⟨0, 100, []⟩ 1) 2).installed
      (createStep (createStep ⟨0, 100, []⟩ 1) 2).live = true ∧
    (⟨⟨1, 1⟩, 2⟩ : LiveGuard).target
      = (createStep (createStep ⟨0, 100, []⟩ 1) 2).installed :=
  have h := c3_topmost_guard_installed .output 100
    (createStep (createStep ⟨0, 100, []⟩ 1) 2) (.create _ 2 (.create _ 1 .init))
  ⟨h.1, (h.2 ⟨⟨1, 1⟩, 2⟩ [⟨⟨100, 0⟩, 1⟩] (by decide)).1⟩

/-- C1 counterexample: with three nested guards g0, g1, g2 (tokens 0, 1, 2,
counter at 3), resolving g1 before g2 does *not* trigger the protocol
violation at the point g1 is resolved: the swap `COUNT.swap(1)` returns 3,
which is greater than g1's token, so the check passes and g1's drop
returns `ok` — contradicting the claim that the panic fires exactly then
(position 1 in the newest-first live stack is g1). -/
theorem c1_counterexample :
    (dropLive .output (createN ⟨0, 100, []⟩ [1, 2, 3]) 1 none).1
      = ResetOutcome.ok ∧
    (dropLive .output (createN ⟨0, 100, []⟩ [1, 2, 3]) 1 none).1
      ≠ ResetOutcome.panicked (panicMsg .output) := by decide

/-- C1 (corrected): for three nested guards g0, g1, g2 of the same stream,
resolving g1 before g2 succeeds silently (the counter is swapped down to
g1's token); the fatal protocol violation then fires exactly once, at the
point g2 is subsequently resolved (its token 2 is now at or above the
counter); afterwards g0 remains independently resolvable without
re-triggering the violation, and the process state returns to its
original (counter 0, original stream installed).  This matches the
crate's own `test_multiple_panic`, where the panic is observed at
`drop(guard_2)`, not at `drop(guard_1)`. -/
theorem c1_amended (s0 t1 t2 t3 : Nat) :
    (dropLive .output (createN ⟨0, s0, []⟩ [t1, t2, t3]) 1 none).1
      = ResetOutcome.ok ∧
    (dropLive .output
        (dropLive .output (createN ⟨0, s0, []⟩ [t1, t2, t3]) 1 none).2
        0 none).1
      = ResetOutcome.panicked (panicMsg .output) ∧
    (dropLive .output
        (dropLive .output
          (dropLive .output (createN ⟨0, s0, []⟩ [t1, t2, t3]) 1 none).2
          0 none).2
        0 none).1
      = ResetOutcome.ok ∧
    (dropLive .output
        (dropLive .output
          (dropLive .output (createN ⟨0, s0, []⟩ [t1, t2, t3]) 1 none).2
          0 none).2
        0 none).2
      = ⟨0, s0, []⟩ :=
  ⟨rfl, rfl, rfl, rfl⟩

/-- C4 counterexample: the process-wide counter is *not* monotonically
increasing over the lifetime of the process — after two overrides
(counter 2) a single valid-order resolve swaps it back down to 1 — and a
`sequence_token` does not uniquely identify the creation position
process-wide: the guard created next (the third creation of the stream)
receives token 1 again, the token the resolved second creation had. -/
theorem c4_counterexample :
    (resolveTopStep .output (createN ⟨0, 100, []⟩ [1, 2]) none).2.count
        < (createN ⟨0, 100, []⟩ [1, 2]).count ∧
    (createStep (resolveTopStep .output (createN ⟨0, 100, []⟩ [1, 2]) none).2
        3).live.head? = some ⟨⟨1, 1⟩, 3⟩ := by decide

/-- C4 (corrected): in every reachable state, the counter increases by
exactly one at each successful construction (the new guard's token being
the pre-increment value), while a resolve of the newest guard swaps the
counter down to that guard's token (so the counter is not monotonic over
the process lifetime); tokens are strictly decreasing from newest to
oldest among the simultaneously-live guards of the stream — hence unique
among live guards and identifying their creation order — but may be
reused after a resolve. -/
theorem c4_amended (k : StreamKind) (s0 : Nat) (s : TState)
    (h : Reachable k s0 s) :
    (∀ t, (createStep s t).count = s.count + 1 ∧
       (createStep s t).live.head? = some ⟨⟨s.installed, s.count⟩, t⟩) ∧
    (∀ lg rest, s.live = lg :: rest →
       (resolveTopStep k s none).2.count = lg.guard.index) ∧
    s.live.Pairwise (fun a b => b.guard.index < a.guard.index) := by
  refine ⟨fun t => ⟨rfl, rfl⟩, ?_, goodStack_pairwise (goodStack_reachable h)⟩
  intro lg rest hl
  by_cases hc : s.count ≤ lg.guard.index
  · simp [resolveTopStep, hl, drop_guard, reset_inner, hc]
  · simp [resolveTopStep, hl, drop_guard, reset_inner, hc]

/-- Witness for C4 (corrected), at a concrete reachable state: one guard
live after one construction; the next construction moves the counter from
1 to 2, and resolving the live guard moves it down to its token 0. -/
theorem c4_witness :
    (createStep (createStep ⟨0, 100, []⟩ 1) 3).count
      = (createStep ⟨0, 100, []⟩ 1).count + 1 ∧
    (resolveTopStep .output (createStep ⟨0, 100, []⟩ 1) none).2.count = 0 := by
  have h := c4_amended .output 100 (createStep ⟨0, 100, []⟩ 1) (.create _ 1 .init)
  exact ⟨(h.1 3).1, h.2.1 ⟨⟨100, 0⟩, 1⟩ [] (by decide)⟩

/-- C6 (confirmed): on POSIX, `override_stdio` performs, in this order,
(a) `dup` of the standard-stream slot, (b) `dup2` installing the supplied
target into the slot, and (c) exactly when the target is owned, `close`
of the caller's reference to it; on full success it returns the duplicate
produced by (a), and if any step fails (detected via the `-1` sentinel)
it returns an OS error carrying the platform's last error code set by the
failing call, performing no further syscalls. -/
theorem c6_override_stdio_posix (sys : Nat → Int × Int) (e0 stdio other : Int)
    (owned : Bool) :
    ((sys 0).1 ≠ -1 → (sys 1).1 ≠ -1 → (owned = true → (sys 2).1 ≠ -1) →
      override_stdio sys ⟨0, e0, []⟩ stdio other owned
        = (.ok (sys 0).1,
           ⟨if owned then 3 else 2, if owned then (sys 2).2 else (sys 1).2,
            [.dup stdio, .dup2 other stdio]
              ++ (if owned then [.close other] else [])⟩)) ∧
    ((sys 0).1 = -1 →
      override_stdio sys ⟨0, e0, []⟩ stdio other owned
        = (.error (sys 0).2, ⟨1, (sys 0).2, [.dup stdio]⟩)) ∧
    ((sys 0).1 ≠ -1 → (sys 1).1 = -1 →
      override_stdio sys ⟨0, e0, []⟩ stdio other owned
        = (.error (sys 1).2, ⟨2, (sys 1).2, [.dup stdio, .dup2 other stdio]⟩)) ∧
    ((sys 0).1 ≠ -1 → (sys 1).1 ≠ -1 → owned = true → (sys 2).1 = -1 →
      override_stdio sys ⟨0, e0, []⟩ stdio other owned
        = (.error (sys 2).2,
           ⟨3, (sys 2).2, [.dup stdio, .dup2 other stdio, .close other]⟩)) := by
  refine ⟨?_, ?_, ?_, ?_⟩
  · intro h0 h1 h2
    cases owned with
    | false => simp [override_stdio, set_stdio, syscall, io_res, h0, h1]
    | true => simp [override_stdio, set_stdio, syscall, io_res, h0, h1, h2 rfl]
  · intro h0
    simp [override_stdio, set_stdio, syscall, io_res, h0]
  · intro h0 h1
    simp [override_stdio, set_stdio, syscall, io_res, h0, h1]
  · intro h0 h1 h2 h3
    subst h2
    simp [override_stdio, set_stdio, syscall, io_res, h0, h1, h3]

/-- Witness for C6: a concrete oracle on which the k-th syscall returns
`k + 3` (never `-1`) with last error 7: overriding fd 1 by owned fd 5
issues `dup 1; dup2 5 1; close 5` and returns the duplicate 3. -/
theorem c6_witness :
    override_stdio (fun n => ((n : Int) + 3, 7)) ⟨0, 0, []⟩ 1 5 true
      = (.ok 3, ⟨3, 7, [.dup 1, .dup2 5 1, .close 5]⟩) := by
  have h := (c6_override_stdio_posix (fun n => ((n : Int) + 3, 7)) 0 1 5 true).1
    (by decide) (by decide) (by intro _; decide)
  simpa using h

/-- C7 counterexample: an explicit `reset` whose ordering check passes
(counter 2, token 0) but whose platform restore fails with OS error 13
does not return that error to the caller: the guard is dropped on the
error-return path, its destructor re-runs the check against the
already-swapped counter and panics.  This contradicts the claim that
explicit resolve returns the `Result` of the restore operation. -/
theorem c7_counterexample :
    (reset .output ⟨2, 7⟩ ⟨5, 0⟩ (some 13)).1
      = ResetOutcome.panicked (panicMsg .output) ∧
    (reset .output ⟨2, 7⟩ ⟨5, 0⟩ (some 13)).1 ≠ ResetOutcome.osError 13 := by
  decide

/-- C7 (corrected): explicit resolve returns `Ok` of the successful
restore, but when the restore fails it panics instead of returning the OS
error (the destructor re-check fires on the error-return path); implicit
resolve (guard destruction) discards any OS error from the restore; both
paths perform the ordering check, and an ordering violation panics even
when resolution is triggered implicitly by destruction (and also when
triggered explicitly). -/
theorem c7_amended (k : StreamKind) (m : MachineState) (g : Guard) (e : Nat)
    (r : Option Nat) :
    (g.index < m.count → reset k m g none = (.ok, ⟨g.index, g.original⟩)) ∧
    (g.index < m.count →
      (reset k m g (some e)).1 = .panicked (panicMsg k)) ∧
    (g.index < m.count →
      drop_guard k m g (some e) = (.ok, ⟨g.index, m.installed⟩)) ∧
    (m.count ≤ g.index → (drop_guard k m g r).1 = .panicked (panicMsg k)) ∧
    (m.count ≤ g.index → (reset k m g r).1 = .panicked (panicMsg k)) := by
  refine ⟨?_, ?_, ?_, ?_, ?_⟩
  · intro h; simp [reset, reset_inner, Nat.not_le.mpr h]
  · intro h; simp [reset, reset_inner, Nat.not_le.mpr h]
  · intro h; simp [drop_guard, reset_inner, Nat.not_le.mpr h]
  · intro h; simp [drop_guard, reset_inner, h]
  · intro h; simp [reset, reset_inner, h]

/-- Witness for C7 (corrected): concrete instances of all five clauses. -/
theorem c7_witness :
    reset .output ⟨2, 7⟩ ⟨5, 0⟩ none = (.ok, ⟨0, 5⟩) ∧
    (reset .output ⟨2, 7⟩ ⟨5, 0⟩ (some 13)).1
      = ResetOutcome.panicked (panicMsg .output) ∧
    drop_guard .output ⟨2, 7⟩ ⟨5, 0⟩ (some 13) = (.ok, ⟨0, 7⟩) ∧
    (drop_guard .output ⟨1, 7⟩ ⟨5, 2⟩ none).1
      = ResetOutcome.panicked (panicMsg .output) ∧
    (reset .output ⟨1, 7⟩ ⟨5, 2⟩ none).1
      = ResetOutcome.panicked (panicMsg .output) := by
  have h1 := c7_amended .output ⟨2, 7⟩ ⟨5, 0⟩ 13 none
  have h2 := c7_amended .output ⟨1, 7⟩ ⟨5, 2⟩ 13 none
  exact ⟨h1.1 (by decide), h1.2.1 (by decide), h1.2.2.1 (by decide),
    h2.2.2.2.1 (by decide), h2.2.2.2.2 (by decide)⟩

/-- C10 (confirmed): when an explicit `reset` passes the ordering check
(token below the counter) but the platform restore fails with an OS
error, `reset_inner` has already swapped the counter down to the guard's
own token; on the `?` error-return path the guard is still dropped, its
destructor re-runs `reset_inner`, the swap now returns the counter equal
to the token, and it panics with the out-of-order message — so the OS
error is never actually returned to the caller. -/
theorem c10_reset_error_path_panics (k : StreamKind) (m : MachineState)
    (g : Guard) (e : Nat) (h : g.index < m.count) :
    (reset_inner k m g (some e)).1 = .osError e ∧
    (reset_inner k m g (some e)).2.count = g.index ∧
    (reset_inner k (reset_inner k m g (some e)).2 g (some e)).1
      = .panicked (panicMsg k) ∧
    reset k m g (some e) = (.panicked (panicMsg k), ⟨g.index, m.installed⟩) := by
  have hn := Nat.not_le.mpr h
  simp [reset, reset_inner, hn]

/-- Witness for C10: counter 2, token 0, restore failing with error 13. -/
theorem c10_witness :
    (reset_inner .output ⟨2, 7⟩ ⟨5, 0⟩ (some 13)).1 = ResetOutcome.osError 13 ∧
    (reset_inner .output ⟨2, 7⟩ ⟨5, 0⟩ (some 13)).2.count = 0 ∧
    (reset_inner .output (reset_inner .output ⟨2, 7⟩ ⟨5, 0⟩ (some 13)).2
        ⟨5, 0⟩ (some 13)).1 = ResetOutcome.panicked (panicMsg .output) ∧
    reset .output ⟨2, 7⟩ ⟨5, 0⟩ (some 13)
      = (.panicked (panicMsg .output), ⟨0, 7⟩) :=
  c10_reset_error_path_panics .output ⟨2, 7⟩ ⟨5, 0⟩ 13 (by decide)

end StdioOverride
